import Mathlib

/-!
Verification of the real-time chat core of the joongobooks marketplace
(`chat/consumers.py`, `chat/views.py`, `chat/models.py`).

The durable store (books, chat rooms, messages) is embedded as explicit
state; the Django ORM operations used by the core are translated into pure
state-passing functions.  The Channels group layer is embedded as a list of
joined connections per room, and `group_send` dispatch is embedded
faithfully: a group event carries its `type` string, and delivery to a
connection looks that string up among the consumer's handler method names
(`chat_message`, `messages_read`, `user_typing`, `user_join`); an event
whose type matches no handler method raises in Channels and is delivered to
nobody, which the embedding records as `Delivery.noHandler`.
-/

namespace Joongobooks

/-- A book (`books.models.Book`), reduced to the fields the chat core
reads: its primary key and its `writer` (the seller / owner). -/
structure Book where
  id : Nat
  writer : Nat
  deriving DecidableEq, Repr

/-- `chat.models.ChatRoom`: a negotiation thread for one (book, buyer)
pair, with the seller fixed at creation time. -/
structure ChatRoom where
  id : Nat
  book : Nat
  buyer : Nat
  seller : Nat
  deriving DecidableEq, Repr

/-- `chat.models.Message`: one chat utterance.  `created_at` is an abstract
logical timestamp assigned at persistence time. -/
structure Msg where
  id : Nat
  chatroom : Nat
  sender : Nat
  content : String
  is_read : Bool
  created_at : Nat
  deriving DecidableEq, Repr

/-- `ChatRoom.is_participant`: the user is the room's buyer or seller. -/
def ChatRoom.is_participant (r : ChatRoom) (userId : Nat) : Bool :=
  userId == r.buyer || userId == r.seller

/-- The durable store: the tables the chat core touches, plus the id
sequences and a logical clock for `created_at` stamps. -/
structure Store where
  books : List Book
  rooms : List ChatRoom
  messages : List Msg
  next_message_id : Nat
  next_room_id : Nat
  clock : Nat
  deriving DecidableEq, Repr

/-- `ChatConsumer.save_message`: persist a new message in the room with
`is_read` defaulting to `false` (the model field default) and `created_at`
assigned at persistence time.  The `chatroom.save()` bump of `updated_at`
only affects room-list ordering and is not modelled. -/
def save_message (st : Store) (roomId senderId : Nat) (content : String) :
    Store × Msg :=
  let m : Msg := ⟨st.next_message_id, roomId, senderId, content, false, st.clock⟩
  ({ st with
      messages := st.messages ++ [m],
      next_message_id := st.next_message_id + 1,
      clock := st.clock + 1 }, m)

/-- The per-message update performed by `ChatConsumer.mark_messages_as_read`:
`filter(id__in=message_ids, chatroom_id=roomId).exclude(sender=ex).update(is_read=True)`. -/
def readFlagStep (roomId : Nat) (ids : List Nat) (ex : Nat) (m : Msg) : Msg :=
  if m.id ∈ ids ∧ m.chatroom = roomId ∧ m.sender ≠ ex then
    { m with is_read := true }
  else m

/-- `ChatConsumer.mark_messages_as_read`, applied to the message table. -/
def mark_messages_as_read (msgs : List Msg) (roomId : Nat) (ids : List Nat)
    (ex : Nat) : List Msg :=
  msgs.map (readFlagStep roomId ids ex)

/-- The per-message update performed by `MessageListView.get` on room open:
`chatroom.messages.filter(is_read=False).exclude(sender=user).update(is_read=True)`. -/
def openReadStep (roomId : Nat) (userId : Nat) (m : Msg) : Msg :=
  if m.chatroom = roomId ∧ m.is_read = false ∧ m.sender ≠ userId then
    { m with is_read := true }
  else m

/-- The read-marking side effect of `MessageListView.get` (fetching a
room's history marks every unread message the caller did not send). -/
def mark_all_unread_as_read (msgs : List Msg) (roomId : Nat) (userId : Nat) :
    List Msg :=
  msgs.map (openReadStep roomId userId)

/-- The `is_read=False` / `exclude(sender=user)` part of the unread-count
query, shared between the view's flat query and the spec's per-room
aggregation. -/
def unreadPred (userId : Nat) (m : Msg) : Bool :=
  (m.is_read == false) && !(m.sender == userId)

/-- `UnreadCountView.get`: count messages in rooms where the caller is
buyer or seller, with `is_read=False`, excluding the caller's own.  The ORM
join `chatroom__buyer` is embedded by matching the message's room id
against the room table. -/
def unread_count (st : Store) (userId : Nat) : Nat :=
  (st.messages.filter fun m =>
    (st.rooms.any fun r =>
      m.chatroom == r.id && (r.buyer == userId || r.seller == userId)) &&
    unreadPred userId m).length

/-- The spec's description of `unreadTotal` as a per-room aggregation:
the sum, over the rooms where the user is buyer or seller, of that room's
count of unread messages not sent by the user.  Stated from the spec's
words to compare against `unread_count` (no double counting). -/
def unreadTotalSpec (st : Store) (userId : Nat) : Nat :=
  ((st.rooms.filter fun r => r.buyer == userId || r.seller == userId).map
    fun r =>
      (st.messages.filter fun m =>
        m.chatroom == r.id && unreadPred userId m).length).sum

/-- Outcome of `ChatRoomCreateOrGetView.post` (ignoring the missing
`book_id` 400, which takes no store input here). -/
inductive CreateOrGetResult where
  /-- 404: the book does not exist. -/
  | notFound
  /-- 400: the caller is the book's writer (self-negotiation). -/
  | selfChatRejected
  /-- 200: the (book, buyer) pair already has a room. -/
  | existingRoom (r : ChatRoom)
  /-- 201: a new room was created. -/
  | createdRoom (r : ChatRoom)
  deriving DecidableEq, Repr

/-- `ChatRoomCreateOrGetView.post`: look up the book, reject
self-negotiation, then `get_or_create` on (book, buyer) with the seller
defaulted to the book's writer. -/
def create_or_get_chatroom (st : Store) (bookId buyerId : Nat) :
    Store × CreateOrGetResult :=
  match st.books.find? (fun b => b.id == bookId) with
  | none => (st, .notFound)
  | some book =>
    if book.writer = buyerId then (st, .selfChatRejected)
    else
      match st.rooms.find? (fun r => r.book == bookId && r.buyer == buyerId) with
      | some r => (st, .existingRoom r)
      | none =>
        let r : ChatRoom := ⟨st.next_room_id, bookId, buyerId, book.writer⟩
        ({ st with rooms := st.rooms ++ [r], next_room_id := st.next_room_id + 1 },
         .createdRoom r)

/-- Python's `str.strip()` with no argument: remove leading and trailing
whitespace.  Stated over the string's character list so that it reduces by
computation. -/
def pyStrip (s : String) : String :=
  ⟨((s.data.dropWhile Char.isWhitespace).reverse.dropWhile Char.isWhitespace).reverse⟩

/-- The payload a group event carries on the channel layer, one
constructor per shape of dict built by `ChatConsumer.receive` /
`ChatConsumer.connect` (minus the `type` key, kept separately as the
dispatch string). -/
inductive GroupPayload where
  /-- Payload of the chat-message broadcast: the serialised persisted
  message, as `(id, content, sender_id, sender_username, created_at,
  is_read)`. -/
  | chat (id : Nat) (content : String) (sender_id : Nat)
      (sender_username : String) (created_at : Nat) (is_read : Bool)
  /-- Payload of the read broadcast: the inbound `message_ids` and the
  acting user's id. -/
  | readIds (message_ids : List Nat) (user_id : Nat)
  /-- Payload of the typing broadcast. -/
  | typingState (user_id : Nat) (username : String) (is_typing : Bool)
  /-- Payload of the join broadcast. -/
  | joinedUser (username : String) (user_id : Nat)
  deriving DecidableEq, Repr

/-- A message placed on the room's channel-layer group by `group_send`:
its `type` string (the Channels dispatch key) and its payload. -/
structure GroupEvent where
  etype : String
  payload : GroupPayload
  deriving DecidableEq, Repr

/-- An inbound client event as parsed from JSON: every key the consumer
reads with `.get` may be absent. -/
structure InEvent where
  etype : Option String
  content : Option String
  message_ids : Option (List Nat)
  is_typing : Option Bool
  deriving DecidableEq, Repr

/-- `ChatConsumer.receive` for a session on room `roomId` acting as
`userId`: dispatch on `data.get('type', 'message')`, returning the updated
store and the group event handed to `group_send` (if any).  `uname` is the
user-id → username resolution done through `self.user.username` /
`message.sender.username`. -/
def receive (uname : Nat → String) (st : Store) (roomId userId : Nat)
    (ev : InEvent) : Store × Option GroupEvent :=
  let message_type := ev.etype.getD "message"
  if message_type = "message" then
    let content := pyStrip (ev.content.getD "")
    if content = "" then (st, none)
    else
      let saved := save_message st roomId userId content
      (saved.1, some ⟨"chat_message",
        .chat saved.2.id saved.2.content saved.2.sender (uname saved.2.sender)
          saved.2.created_at saved.2.is_read⟩)
  else if message_type = "read" then
    let ids := ev.message_ids.getD []
    ({ st with messages := mark_messages_as_read st.messages roomId ids userId },
     some ⟨"message_read", .readIds ids userId⟩)
  else if message_type = "typing" then
    (st, some ⟨"user_typing",
      .typingState userId (uname userId) (ev.is_typing.getD false)⟩)
  else
    (st, none)

/-- A frame the consumer writes back to its own client, one constructor
per `self.send(...)` call site; the wire `type` strings are `message`,
`read`, `typing` and `user_join` respectively. -/
inductive Outbound where
  | message (id : Nat) (content : String) (sender_id : Nat)
      (sender_username : String) (created_at : Nat) (is_read : Bool)
  | readInfo (message_ids : List Nat) (user_id : Nat)
  | typingInfo (username : String) (is_typing : Bool)
  | joinInfo (username : String)
  deriving DecidableEq, Repr

/-- What one joined connection receives for one group event. -/
inductive Delivery where
  /-- The connection's handler ran `self.send` with this frame. -/
  | sent (o : Outbound)
  /-- The connection's handler ran but chose not to send (self-echo
  suppression). -/
  | skipped
  /-- The event's `type` string names no handler method of the consumer:
  Channels raises `ValueError` at dispatch and nothing is sent. -/
  | noHandler
  deriving DecidableEq, Repr

/-- Channels group dispatch for one joined connection whose session user is
`selfUser`: the event's `type` string is matched against the consumer's
handler method names — `chat_message`, `messages_read`, `user_typing`,
`user_join` — and the matching handler body runs; any other string has no
handler.  A handler finding a payload without its expected keys would
raise (`KeyError`), modelled as `noHandler`; the events built by this
consumer always pair each `type` with its own payload shape. -/
def dispatchTo (selfUser : Nat) (ev : GroupEvent) : Delivery :=
  if ev.etype = "chat_message" then
    match ev.payload with
    | .chat i c s su ca ir => .sent (.message i c s su ca ir)
    | _ => .noHandler
  else if ev.etype = "messages_read" then
    match ev.payload with
    | .readIds ids u => .sent (.readInfo ids u)
    | _ => .noHandler
  else if ev.etype = "user_typing" then
    match ev.payload with
    | .typingState u name ty =>
        if u ≠ selfUser then .sent (.typingInfo name ty) else .skipped
    | _ => .noHandler
  else if ev.etype = "user_join" then
    match ev.payload with
    | .joinedUser name u =>
        if u ≠ selfUser then .sent (.joinInfo name) else .skipped
    | _ => .noHandler
  else
    .noHandler

/-- One live connection joined to a room's group: its channel name and the
session user it belongs to. -/
structure Conn where
  channel : Nat
  userId : Nat
  deriving DecidableEq, Repr

/-- Fan-out of one group event to a room's membership set: every joined
connection runs its own dispatch. -/
def broadcastTo (mem : List Conn) (ev : GroupEvent) : List (Conn × Delivery) :=
  mem.map fun c => (c, dispatchTo c.userId ev)

/-- `ChatConsumer.check_permission`: the room must exist and the user must
be one of its participants; a missing room is reported as no permission. -/
def check_permission (st : Store) (roomId userId : Nat) : Bool :=
  match st.rooms.find? (fun r => r.id == roomId) with
  | some r => r.is_participant userId
  | none => false

/-- Result of the connection handshake. -/
inductive ConnectResult where
  | closed
  | accepted
  deriving DecidableEq, Repr

/-- `ChatConsumer.connect` for the group of room `roomId`, given the
room's current membership set `mem`: unauthenticated or unauthorized
callers are closed before `group_add`; otherwise the connection joins the
group, is accepted, and a `user_join` event is sent to the group. -/
def connect (uname : Nat → String) (st : Store) (mem : List Conn)
    (roomId userId : Nat) (isAuthenticated : Bool) (channel : Nat) :
    List Conn × Option GroupEvent × ConnectResult :=
  if isAuthenticated = false then (mem, none, .closed)
  else if check_permission st roomId userId = false then (mem, none, .closed)
  else (mem ++ [⟨channel, userId⟩],
        some ⟨"user_join", .joinedUser (uname userId) userId⟩,
        .accepted)

/-- The store-mutating operations of the system, for stating invariants
over arbitrary operation sequences: a `message` event (`receive` /
`save_message`), a `read` event (`mark_messages_as_read`), and a history
fetch (`MessageListView.get`'s `mark_all_unread_as_read`). -/
inductive Op where
  | sendMsg (roomId senderId : Nat) (content : String)
  | markRead (roomId : Nat) (ids : List Nat) (actorId : Nat)
  | openRoom (roomId actorId : Nat)
  deriving DecidableEq, Repr

/-- The user performing an operation. -/
def Op.actor : Op → Nat
  | .sendMsg _ s _ => s
  | .markRead _ _ a => a
  | .openRoom _ a => a

/-- Apply one operation to the store, as the corresponding code path does
(a `message` event trims and drops empty content before persisting). -/
def applyOp (st : Store) : Op → Store
  | .sendMsg r s c =>
      if pyStrip c = "" then st else (save_message st r s (pyStrip c)).1
  | .markRead r ids a =>
      { st with messages := mark_messages_as_read st.messages r ids a }
  | .openRoom r a =>
      { st with messages := mark_all_unread_as_read st.messages r a }

/-- Apply a sequence of operations left to right. -/
def applyOps (st : Store) (ops : List Op) : Store := ops.foldl applyOp st

/-- A small concrete store for scenario checks: book 7 owned by user 2,
room 1 over that book with buyer 1 and seller 2, and one unread message
(id 5) sent by the seller. -/
def demoStore : Store :=
  ⟨[⟨7, 2⟩], [⟨1, 7, 1, 2⟩], [⟨5, 1, 2, "hello", false, 0⟩], 6, 2, 1⟩

/-- `demoStore` after the buyer has read message 5. -/
def demoStoreRead : Store :=
  ⟨[⟨7, 2⟩], [⟨1, 7, 1, 2⟩], [⟨5, 1, 2, "hello", true, 0⟩], 6, 2, 1⟩

/-- Constant username resolution for the concrete scenarios. -/
def demoName : Nat → String := fun _ => "u"

theorem readFlagStep_of_target (roomId : Nat) (ids : List Nat) (ex : Nat)
    (m : Msg) (h : m.id ∈ ids ∧ m.chatroom = roomId ∧ m.sender ≠ ex) :
    readFlagStep roomId ids ex m = { m with is_read := true } := by
  unfold readFlagStep
  exact if_pos h

theorem readFlagStep_of_not_target (roomId : Nat) (ids : List Nat) (ex : Nat)
    (m : Msg) (h : ¬(m.id ∈ ids ∧ m.chatroom = roomId ∧ m.sender ≠ ex)) :
    readFlagStep roomId ids ex m = m := by
  unfold readFlagStep
  exact if_neg h

theorem readFlagStep_id (roomId : Nat) (ids : List Nat) (ex : Nat) (m : Msg) :
    (readFlagStep roomId ids ex m).id = m.id := by
  unfold readFlagStep
  split <;> rfl

theorem readFlagStep_is_read (roomId : Nat) (ids : List Nat) (ex : Nat)
    (m : Msg) (h : m.is_read = true) :
    (readFlagStep roomId ids ex m).is_read = true := by
  unfold readFlagStep
  split <;> simp [h]

theorem readFlagStep_own (roomId : Nat) (ids : List Nat) (m : Msg) :
    readFlagStep roomId ids m.sender m = m := by
  unfold readFlagStep
  simp

theorem readFlagStep_idem (roomId : Nat) (ids : List Nat) (ex : Nat) (m : Msg) :
    readFlagStep roomId ids ex (readFlagStep roomId ids ex m)
      = readFlagStep roomId ids ex m := by
  by_cases h : m.id ∈ ids ∧ m.chatroom = roomId ∧ m.sender ≠ ex
  · rw [readFlagStep_of_target roomId ids ex m h]
    exact readFlagStep_of_target roomId ids ex _ h
  · rw [readFlagStep_of_not_target roomId ids ex m h]
    exact readFlagStep_of_not_target roomId ids ex m h

theorem openReadStep_id (roomId userId : Nat) (m : Msg) :
    (openReadStep roomId userId m).id = m.id := by
  unfold openReadStep
  split <;> rfl

theorem openReadStep_is_read (roomId userId : Nat) (m : Msg)
    (h : m.is_read = true) : (openReadStep roomId userId m).is_read = true := by
  unfold openReadStep
  split <;> simp [h]

theorem openReadStep_own (roomId : Nat) (m : Msg) :
    openReadStep roomId m.sender m = m := by
  unfold openReadStep
  simp

/-- C4: an inbound `message`-kind event whose content is empty after
trimming (including whitespace-only content) is a silent no-op: the store
is unchanged (no `Message` persisted) and no group event is sent (no
broadcast).  `receive` has no close or error path here, so the connection
stays open. -/
theorem C4_empty_message_noop (uname : Nat → String) (st : Store)
    (roomId userId : Nat) (ev : InEvent)
    (hty : ev.etype.getD "message" = "message")
    (hc : pyStrip (ev.content.getD "") = "") :
    receive uname st roomId userId ev = (st, none) := by
  simp [receive, hty, hc]

theorem C4_empty_message_noop_witness :
    receive demoName demoStore 1 1 (InEvent.mk (some "message") (some "   ") none none)
      = (demoStore, none) :=
  C4_empty_message_noop demoName demoStore 1 1
    (InEvent.mk (some "message") (some "   ") none none) rfl (by decide)

/-- C5: `mark_messages_as_read` sets `is_read` to `true` exactly for the
messages of the given room whose id is listed and whose sender differs
from the excluded user: every such message reappears with the flag set,
every other message survives unchanged, and nothing else enters the
table.  It is idempotent: a second invocation with the same arguments
leaves the message table identical, and (being total) raises no error. -/
theorem C5_mark_read_exact_and_idempotent (msgs : List Msg) (roomId : Nat)
    (ids : List Nat) (ex : Nat) :
    (∀ m ∈ msgs, m.id ∈ ids ∧ m.chatroom = roomId ∧ m.sender ≠ ex →
      { m with is_read := true } ∈ mark_messages_as_read msgs roomId ids ex) ∧
    (∀ m ∈ msgs, ¬(m.id ∈ ids ∧ m.chatroom = roomId ∧ m.sender ≠ ex) →
      m ∈ mark_messages_as_read msgs roomId ids ex) ∧
    (∀ m2 ∈ mark_messages_as_read msgs roomId ids ex,
      m2 ∈ msgs ∨ ∃ m ∈ msgs,
        (m.id ∈ ids ∧ m.chatroom = roomId ∧ m.sender ≠ ex) ∧
        m2 = { m with is_read := true }) ∧
    mark_messages_as_read (mark_messages_as_read msgs roomId ids ex) roomId ids ex
      = mark_messages_as_read msgs roomId ids ex := by
  refine ⟨?_, ?_, ?_, ?_⟩
  · intro m hm h
    rw [← readFlagStep_of_target roomId ids ex m h]
    exact List.mem_map_of_mem _ hm
  · intro m hm h
    rw [← readFlagStep_of_not_target roomId ids ex m h]
    exact List.mem_map_of_mem _ hm
  · intro m2 hm2
    obtain ⟨m, hm, hstep⟩ := List.mem_map.mp hm2
    by_cases h : m.id ∈ ids ∧ m.chatroom = roomId ∧ m.sender ≠ ex
    · right
      exact ⟨m, hm, h, by rw [← hstep, readFlagStep_of_target roomId ids ex m h]⟩
    · left
      rw [← hstep, readFlagStep_of_not_target roomId ids ex m h]
      exact hm
  · unfold mark_messages_as_read
    rw [List.map_map]
    exact List.map_congr_left fun m _ => readFlagStep_idem roomId ids ex m

theorem C5_mark_read_exact_and_idempotent_witness :
    (Msg.mk 5 1 2 "hello" true 0)
      ∈ mark_messages_as_read [Msg.mk 5 1 2 "hello" false 0] 1 [5] 1 :=
  (C5_mark_read_exact_and_idempotent [Msg.mk 5 1 2 "hello" false 0] 1 [5] 1).1
    (Msg.mk 5 1 2 "hello" false 0) (by decide) (by decide)

/-- C2: a `message` event with non-empty trimmed content `c` persists a
`Message` with that content, the acting sender, and `is_read = false`, and
the `chat_message` group event carries the persisted message's id,
content, sender id, sender display name, created-at stamp and read flag;
its dispatch delivers that frame to a connection of every user — there is
no exclusion, so the sender's own connection receives it too. -/
theorem C2_chat_message_broadcast (uname : Nat → String) (st : Store)
    (roomId A : Nat) (ev : InEvent)
    (hty : ev.etype = some "message")
    (hc : pyStrip (ev.content.getD "") ≠ "") :
    (receive uname st roomId A ev).1.messages
      = st.messages ++
        [Msg.mk st.next_message_id roomId A (pyStrip (ev.content.getD "")) false st.clock] ∧
    (receive uname st roomId A ev).2
      = some (GroupEvent.mk "chat_message"
          (GroupPayload.chat st.next_message_id (pyStrip (ev.content.getD ""))
            A (uname A) st.clock false)) ∧
    ∀ u : Nat,
      dispatchTo u (GroupEvent.mk "chat_message"
          (GroupPayload.chat st.next_message_id (pyStrip (ev.content.getD ""))
            A (uname A) st.clock false))
        = Delivery.sent (Outbound.message st.next_message_id
            (pyStrip (ev.content.getD "")) A (uname A) st.clock false) := by
  refine ⟨?_, ?_, ?_⟩
  · simp [receive, hty, hc, save_message]
  · simp [receive, hty, hc, save_message]
  · intro u
    simp [dispatchTo]

theorem C2_chat_message_broadcast_witness :
    (receive demoName demoStore 1 1 (InEvent.mk (some "message") (some " hi ") none none)).2
      = some (GroupEvent.mk "chat_message" (GroupPayload.chat 6 "hi" 1 "u" 1 false)) :=
  (C2_chat_message_broadcast demoName demoStore 1 1
    (InEvent.mk (some "message") (some " hi ") none none) rfl (by decide)).2.1

/-- C3: a `typing` event from user `U` persists nothing and produces a
`user_typing` group event; its handler suppresses the echo on every
connection whose session user is `U` (any of `U`'s own connections) and
sends the typing frame to every connection whose session user differs from
`U`. -/
theorem C3_typing_isolation (uname : Nat → String) (st : Store)
    (roomId U : Nat) (ev : InEvent) (hty : ev.etype = some "typing") :
    (receive uname st roomId U ev).1 = st ∧
    (receive uname st roomId U ev).2
      = some (GroupEvent.mk "user_typing"
          (GroupPayload.typingState U (uname U) (ev.is_typing.getD false))) ∧
    (∀ c : Conn, c.userId = U →
      dispatchTo c.userId (GroupEvent.mk "user_typing"
          (GroupPayload.typingState U (uname U) (ev.is_typing.getD false)))
        = Delivery.skipped) ∧
    (∀ c : Conn, c.userId ≠ U →
      dispatchTo c.userId (GroupEvent.mk "user_typing"
          (GroupPayload.typingState U (uname U) (ev.is_typing.getD false)))
        = Delivery.sent (Outbound.typingInfo (uname U) (ev.is_typing.getD false))) := by
  refine ⟨?_, ?_, ?_, ?_⟩
  · simp [receive, hty]
  · simp [receive, hty]
  · intro c hc
    simp [dispatchTo, hc]
  · intro c hc
    simp [dispatchTo, Ne.symm hc]

theorem C3_typing_isolation_witness :
    dispatchTo 2 (GroupEvent.mk "user_typing" (GroupPayload.typingState 1 "u" true))
      = Delivery.sent (Outbound.typingInfo "u" true) :=
  (C3_typing_isolation demoName demoStore 1 1
    (InEvent.mk (some "typing") none none (some true)) rfl).2.2.2
    (Conn.mk 0 2) (by decide)

/-- C9: a handshake by an unauthenticated caller, or by a caller who is
not the room's buyer or seller, or whose target room does not exist, is
closed before any join: the membership set is returned unchanged, no group
event is broadcast, and the result is `closed`.  A missing room and a
non-participant caller both make `check_permission` false. -/
theorem C9_handshake_rejected (uname : Nat → String) (st : Store)
    (mem : List Conn) (roomId userId channel : Nat) (isAuthenticated : Bool) :
    ((isAuthenticated = false ∨ check_permission st roomId userId = false) →
      connect uname st mem roomId userId isAuthenticated channel
        = (mem, none, ConnectResult.closed)) ∧
    (st.rooms.find? (fun r => r.id == roomId) = none →
      check_permission st roomId userId = false) ∧
    (∀ r : ChatRoom, st.rooms.find? (fun r => r.id == roomId) = some r →
      r.buyer ≠ userId → r.seller ≠ userId →
      check_permission st roomId userId = false) := by
  refine ⟨?_, ?_, ?_⟩
  · rintro (h | h)
    · simp [connect, h]
    · cases isAuthenticated with
      | false => simp [connect]
      | true => simp [connect, h]
  · intro h
    simp [check_permission, h]
  · intro r hr hb hs
    simp [check_permission, hr, ChatRoom.is_participant, Ne.symm hb, Ne.symm hs]

theorem C9_handshake_rejected_witness :
    connect demoName demoStore [] 42 1 true 3 = ([], none, ConnectResult.closed) :=
  (C9_handshake_rejected demoName demoStore [] 42 1 3 true).1 (Or.inr (by decide))

/-- C10: an inbound event with no `type` key is not dropped as unknown: it
is handled exactly as a `message`-kind event, so with non-empty trimmed
content a `Message` is persisted and a `chat_message` group event is
produced; only an event whose `type` key is present but none of
`message` / `read` / `typing` is silently dropped. -/
theorem C10_missing_kind_defaults_to_message (uname : Nat → String)
    (st : Store) (roomId userId : Nat) (ev : InEvent) (hty : ev.etype = none) :
    receive uname st roomId userId ev
      = receive uname st roomId userId { ev with etype := some "message" } ∧
    (pyStrip (ev.content.getD "") ≠ "" →
      (receive uname st roomId userId ev).1.messages
        = st.messages ++
          [Msg.mk st.next_message_id roomId userId (pyStrip (ev.content.getD "")) false st.clock] ∧
      (receive uname st roomId userId ev).2
        = some (GroupEvent.mk "chat_message"
            (GroupPayload.chat st.next_message_id (pyStrip (ev.content.getD ""))
              userId (uname userId) st.clock false))) ∧
    (∀ k : String, k ≠ "message" → k ≠ "read" → k ≠ "typing" →
      receive uname st roomId userId { ev with etype := some k } = (st, none)) := by
  refine ⟨?_, ?_, ?_⟩
  · simp [receive, hty]
  · intro hc
    constructor
    · simp [receive, hty, hc, save_message]
    · simp [receive, hty, hc, save_message]
  · intro k h1 h2 h3
    simp [receive, h1, h2, h3]

theorem C10_missing_kind_defaults_to_message_witness :
    receive demoName demoStore 1 1 (InEvent.mk none (some "hi") none none)
      = receive demoName demoStore 1 1 (InEvent.mk (some "message") (some "hi") none none) :=
  (C10_missing_kind_defaults_to_message demoName demoStore 1 1
    (InEvent.mk none (some "hi") none none) rfl).1

/-- C8: `create_or_get_chatroom` returns `notFound` with the store
unchanged when the book does not exist; returns `selfChatRejected` with
the store unchanged when the buyer is the book's writer; returns the
existing room (which is exactly the room of that (book, buyer) pair) with
the store unchanged when one exists; and otherwise appends exactly one new
room whose seller is the book's current writer and returns it as
created. -/
theorem C8_create_or_get_chatroom (st : Store) (bookId buyerId : Nat) :
    (st.books.find? (fun b => b.id == bookId) = none →
      create_or_get_chatroom st bookId buyerId = (st, CreateOrGetResult.notFound)) ∧
    (∀ b : Book, st.books.find? (fun b => b.id == bookId) = some b →
      b.writer = buyerId →
      create_or_get_chatroom st bookId buyerId = (st, CreateOrGetResult.selfChatRejected)) ∧
    (∀ r : ChatRoom,
      st.rooms.find? (fun r => r.book == bookId && r.buyer == buyerId) = some r →
      r.book = bookId ∧ r.buyer = buyerId) ∧
    (∀ b : Book, st.books.find? (fun b => b.id == bookId) = some b →
      b.writer ≠ buyerId →
      ∀ r : ChatRoom,
        st.rooms.find? (fun r => r.book == bookId && r.buyer == buyerId) = some r →
        create_or_get_chatroom st bookId buyerId = (st, CreateOrGetResult.existingRoom r)) ∧
    (∀ b : Book, st.books.find? (fun b => b.id == bookId) = some b →
      b.writer ≠ buyerId →
      st.rooms.find? (fun r => r.book == bookId && r.buyer == buyerId) = none →
      create_or_get_chatroom st bookId buyerId
        = ({ st with
              rooms := st.rooms ++ [ChatRoom.mk st.next_room_id bookId buyerId b.writer],
              next_room_id := st.next_room_id + 1 },
           CreateOrGetResult.createdRoom
             (ChatRoom.mk st.next_room_id bookId buyerId b.writer))) := by
  refine ⟨?_, ?_, ?_, ?_, ?_⟩
  · intro h
    simp [create_or_get_chatroom, h]
  · intro b hb hw
    simp [create_or_get_chatroom, hb, hw]
  · intro r hr
    have h := List.find?_some hr
    simp only [Bool.and_eq_true, beq_iff_eq] at h
    exact h
  · intro b hb hw r hr
    simp [create_or_get_chatroom, hb, hw, hr]
  · intro b hb hw hr
    simp [create_or_get_chatroom, hb, hw, hr]

theorem C8_create_or_get_chatroom_witness :
    create_or_get_chatroom demoStore 7 2 = (demoStore, CreateOrGetResult.selfChatRejected) :=
  (C8_create_or_get_chatroom demoStore 7 2).2.1 (Book.mk 7 2) (by decide) rfl

/-- C1 (code bug): in the buyer-reads scenario on `demoStore`, the `read`
event does apply `mark_messages_as_read` (message 5 becomes read), and the
session group-sends an event whose `type` string is `message_read`; but
the consumer's read-receipt handler method is named `messages_read`, so
that string matches no handler and dispatch delivers the read receipt to
no connection at all — neither the buyer's nor the seller's connection,
nor any other user's — contradicting the intended whole-room broadcast. -/
theorem C1_read_receipt_never_delivered :
    (receive demoName demoStore 1 1 (InEvent.mk (some "read") none (some [5]) none)).1.messages
      = [Msg.mk 5 1 2 "hello" true 0] ∧
    (receive demoName demoStore 1 1 (InEvent.mk (some "read") none (some [5]) none)).2
      = some (GroupEvent.mk "message_read" (GroupPayload.readIds [5] 1)) ∧
    broadcastTo [Conn.mk 10 1, Conn.mk 11 2]
        (GroupEvent.mk "message_read" (GroupPayload.readIds [5] 1))
      = [(Conn.mk 10 1, Delivery.noHandler), (Conn.mk 11 2, Delivery.noHandler)] ∧
    ∀ u : Nat,
      dispatchTo u (GroupEvent.mk "message_read" (GroupPayload.readIds [5] 1))
        = Delivery.noHandler := by
  refine ⟨by decide, by decide, by decide, ?_⟩
  intro u
  simp [dispatchTo]

theorem exists_read_after_applyOp (st : Store) (op : Op) (i : Nat)
    (h : ∃ m ∈ st.messages, m.id = i ∧ m.is_read = true) :
    ∃ m ∈ (applyOp st op).messages, m.id = i ∧ m.is_read = true := by
  obtain ⟨m, hm, hid, hread⟩ := h
  cases op with
  | sendMsg r s c =>
    by_cases hc : pyStrip c = ""
    · simp only [applyOp, if_pos hc]
      exact ⟨m, hm, hid, hread⟩
    · simp only [applyOp, if_neg hc, save_message]
      exact ⟨m, List.mem_append_left _ hm, hid, hread⟩
  | markRead r ids a =>
    refine ⟨readFlagStep r ids a m, ?_, ?_, ?_⟩
    · exact List.mem_map_of_mem _ hm
    · rw [readFlagStep_id]
      exact hid
    · exact readFlagStep_is_read r ids a m hread
  | openRoom r a =>
    refine ⟨openReadStep r a m, ?_, ?_, ?_⟩
    · exact List.mem_map_of_mem _ hm
    · rw [openReadStep_id]
      exact hid
    · exact openReadStep_is_read r a m hread

theorem exists_read_after_applyOps (st : Store) (ops : List Op) (i : Nat)
    (h : ∃ m ∈ st.messages, m.id = i ∧ m.is_read = true) :
    ∃ m ∈ (applyOps st ops).messages, m.id = i ∧ m.is_read = true := by
  induction ops generalizing st with
  | nil => exact h
  | cons op t ih => exact ih (applyOp st op) (exists_read_after_applyOp st op i h)

/-- C6: the read flag is monotonic.  A freshly persisted message (the only
message a `sendMsg` operation adds) starts with `is_read = false`; under
any sequence of operations (send, mark-read, history-fetch mark-all), a
message id carrying `is_read = true` keeps carrying it — no operation
reverts `true` to `false`; and no operation by a user touches that user's
own messages at all, so a message is never marked read by an action of its
own sender.  The last two conjuncts state the per-message form: the
update applied by `mark_messages_as_read` and by `mark_all_unread_as_read`
to each stored message never lowers a `true` flag. -/
theorem C6_read_flag_monotonic (st : Store) :
    (∀ (roomId senderId : Nat) (content : String),
      ∀ m ∈ (applyOp st (Op.sendMsg roomId senderId content)).messages,
        m ∉ st.messages → m.is_read = false) ∧
    (∀ (ops : List Op) (i : Nat),
      (∃ m ∈ st.messages, m.id = i ∧ m.is_read = true) →
      ∃ m ∈ (applyOps st ops).messages, m.id = i ∧ m.is_read = true) ∧
    (∀ op : Op, ∀ m ∈ st.messages, m.sender = op.actor →
      m ∈ (applyOp st op).messages) ∧
    (∀ (roomId : Nat) (ids : List Nat) (ex : Nat) (m : Msg), m.is_read = true →
      (readFlagStep roomId ids ex m).is_read = true) ∧
    (∀ (roomId otherId : Nat) (m : Msg), m.is_read = true →
      (openReadStep roomId otherId m).is_read = true) := by
  refine ⟨?_, ?_, ?_, fun roomId ids ex m hm => readFlagStep_is_read roomId ids ex m hm,
    fun roomId otherId m hm => openReadStep_is_read roomId otherId m hm⟩
  · intro roomId senderId content m hm hnot
    by_cases hc : pyStrip content = ""
    · simp only [applyOp, if_pos hc] at hm
      exact absurd hm hnot
    · simp only [applyOp, if_neg hc, save_message] at hm
      rcases List.mem_append.mp hm with h1 | h2
      · exact absurd h1 hnot
      · rw [List.mem_singleton.mp h2]
  · intro ops i h
    exact exists_read_after_applyOps st ops i h
  · intro op m hm hsender
    cases op with
    | sendMsg r s c =>
      by_cases hc : pyStrip c = ""
      · simpa only [applyOp, if_pos hc] using hm
      · simp only [applyOp, if_neg hc, save_message]
        exact List.mem_append_left _ hm
    | markRead r ids a =>
      simp only [Op.actor] at hsender
      have hfix : readFlagStep r ids a m = m := by
        rw [← hsender]
        exact readFlagStep_own r ids m
      simp only [applyOp, mark_messages_as_read]
      rw [← hfix]
      exact List.mem_map_of_mem _ hm
    | openRoom r a =>
      simp only [Op.actor] at hsender
      have hfix : openReadStep r a m = m := by
        rw [← hsender]
        exact openReadStep_own r m
      simp only [applyOp, mark_all_unread_as_read]
      rw [← hfix]
      exact List.mem_map_of_mem _ hm

theorem C6_read_flag_monotonic_witness :
    ∃ m ∈ (applyOps demoStoreRead
        [Op.openRoom 1 1, Op.markRead 1 [5] 2, Op.sendMsg 1 1 "ok"]).messages,
      m.id = 5 ∧ m.is_read = true :=
  (C6_read_flag_monotonic demoStoreRead).2.1
    [Op.openRoom 1 1, Op.markRead 1 [5] 2, Op.sendMsg 1 1 "ok"] 5 (by decide)

theorem length_filter_or_of_disjoint (p q : Msg → Bool) (l : List Msg)
    (h : ∀ a ∈ l, p a = true → q a = false) :
    (l.filter fun a => p a || q a).length
      = (l.filter p).length + (l.filter q).length := by
  induction l with
  | nil => rfl
  | cons a t ih =>
    have ht : ∀ x ∈ t, p x = true → q x = false :=
      fun x hx => h x (List.mem_cons_of_mem a hx)
    by_cases hp : p a = true
    · have hq : q a = false := h a (List.mem_cons_self a t) hp
      simp [List.filter_cons, hp, hq, ih ht, Nat.succ_add]
    · have hp2 : p a = false := by
        cases hpa : p a
        · rfl
        · exact absurd hpa hp
      by_cases hq : q a = true
      · simp [List.filter_cons, hp2, hq, ih ht]
        omega
      · have hq2 : q a = false := by
          cases hqa : q a
          · rfl
          · exact absurd hqa hq
        simp [List.filter_cons, hp2, hq2, ih ht]

theorem unread_sum_lists (u : Nat) (rooms : List ChatRoom) (msgs : List Msg)
    (h : (rooms.map ChatRoom.id).Nodup) :
    (msgs.filter fun m =>
      (rooms.any fun r => m.chatroom == r.id && (r.buyer == u || r.seller == u))
        && unreadPred u m).length
    = ((rooms.filter fun r => r.buyer == u || r.seller == u).map fun r =>
        (msgs.filter fun m => m.chatroom == r.id && unreadPred u m).length).sum := by
  induction rooms with
  | nil => simp
  | cons r rs ih =>
    rw [List.map_cons, List.nodup_cons] at h
    obtain ⟨hid, hnd⟩ := h
    by_cases hpart : (r.buyer == u || r.seller == u) = true
    · have hsplit : ∀ m ∈ msgs,
          (((r :: rs).any fun r2 =>
              m.chatroom == r2.id && (r2.buyer == u || r2.seller == u))
            && unreadPred u m)
          = (((m.chatroom == r.id) && unreadPred u m) ||
             ((rs.any fun r2 =>
                m.chatroom == r2.id && (r2.buyer == u || r2.seller == u))
               && unreadPred u m)) := by
        intro m _
        rw [List.any_cons, hpart, Bool.and_true, Bool.and_or_distrib_right]
      rw [List.filter_congr hsplit]
      have hdisj : ∀ m ∈ msgs,
          ((m.chatroom == r.id) && unreadPred u m) = true →
          ((rs.any fun r2 =>
              m.chatroom == r2.id && (r2.buyer == u || r2.seller == u))
            && unreadPred u m) = false := by
        intro m _ hm
        obtain ⟨hcr, _⟩ := Bool.and_eq_true .. |>.mp hm
        have hany : (rs.any fun r2 =>
            m.chatroom == r2.id && (r2.buyer == u || r2.seller == u)) = false := by
          rw [List.any_eq_false]
          intro r2 hr2 hcontra
          obtain ⟨hcr2, _⟩ := Bool.and_eq_true .. |>.mp hcontra
          refine hid ?_
          have : r.id = r2.id := by
            rw [← beq_iff_eq.mp hcr, ← beq_iff_eq.mp hcr2]
          rw [this]
          exact List.mem_map_of_mem ChatRoom.id hr2
        rw [hany, Bool.false_and]
      rw [length_filter_or_of_disjoint _ _ _ hdisj, ih hnd]
      simp [List.filter_cons, hpart]
    · have hpart2 : (r.buyer == u || r.seller == u) = false := by
        cases hp : (r.buyer == u || r.seller == u)
        · rfl
        · exact absurd hp hpart
      have hsame : ∀ m ∈ msgs,
          (((r :: rs).any fun r2 =>
              m.chatroom == r2.id && (r2.buyer == u || r2.seller == u))
            && unreadPred u m)
          = ((rs.any fun r2 =>
              m.chatroom == r2.id && (r2.buyer == u || r2.seller == u))
            && unreadPred u m) := by
        intro m _
        rw [List.any_cons, hpart2, Bool.and_false, Bool.false_or]
      rw [List.filter_congr hsame, ih hnd]
      simp [List.filter_cons, hpart2]

/-- C7: when room ids are unique (the primary-key invariant of the room
table), the view's flat unread count equals the spec's per-room
aggregation — the count, summed over exactly the rooms where the user is
buyer or seller, of unread messages not sent by the user, with no double
counting; and it never counts a message whose sender is the user:
discarding all of the user's own messages leaves the count unchanged. -/
theorem C7_unread_total (st : Store) (userId : Nat)
    (h : (st.rooms.map ChatRoom.id).Nodup) :
    unread_count st userId = unreadTotalSpec st userId ∧
    unread_count
        { st with messages := st.messages.filter fun m => !(m.sender == userId) }
        userId
      = unread_count st userId := by
  constructor
  · exact unread_sum_lists userId st.rooms st.messages h
  · show ((st.messages.filter fun m => !(m.sender == userId)).filter fun m =>
        (st.rooms.any fun r =>
          m.chatroom == r.id && (r.buyer == userId || r.seller == userId)) &&
        unreadPred userId m).length = unread_count st userId
    rw [List.filter_filter]
    have hb : ∀ x y z : Bool, ((x && (y && z)) && z) = (x && (y && z)) := by decide
    have hpt : ∀ m ∈ st.messages,
        (((st.rooms.any fun r =>
            m.chatroom == r.id && (r.buyer == userId || r.seller == userId)) &&
          unreadPred userId m) && !(m.sender == userId))
        = ((st.rooms.any fun r =>
            m.chatroom == r.id && (r.buyer == userId || r.seller == userId)) &&
          unreadPred userId m) := by
      intro m _
      rw [unreadPred]
      exact hb _ _ _
    rw [List.filter_congr hpt]
    rfl

theorem C7_unread_total_witness :
    unread_count demoStore 1 = unreadTotalSpec demoStore 1 :=
  (C7_unread_total demoStore 1 (by decide)).1

end Joongobooks
